import Mathlib

/-!
Verification of the nest-protect-mcp core against its specification.

This file gives a shallow Lean embedding of the parts of the repository
that the specification's claims concern: the JSON-ish documents the Nest
API returns, the device-state mapper (`server.py:_map_device_state`,
`_map_alarm_state`, `_map_battery_state`), the token lifecycle
(`_refresh_access_token`, the `access_token` property), the authenticated
request pipeline (`_make_request`), the durable state store
(`state_manager.py:_save_state`, `_load_state`, the `StateManager.__new__`
singleton), the command validator (`models.py:ProtectCommand`) and the two
device-listing entry points (`tools/device_status.py:list_devices`,
`server.py:_get_devices_from_api`).

Python values are modeled as follows: JSON documents become the inductive
`JsonValue`; Python `Optional[str]` becomes `Option String` with Python
truthiness modeled by `optFalsy` (None and the empty string are falsy);
`time.time()` becomes an explicit `now : Int` parameter; HTTP traffic
becomes explicit response scripts passed as arguments; raised exceptions
become `Except PyError` results; the filesystem becomes a map from path
strings to file contents.
-/

set_option linter.unusedVariables false

/-- JSON values as produced by `response.json()` in the Python sources.
Objects keep their fields as an association list; Python `dict.get`
becomes first-match lookup. -/
inductive JsonValue where
  | str (s : String)
  | num (n : Int)
  | boolean (b : Bool)
  | null
  | obj (fields : List (String × JsonValue))
  | arr (elems : List JsonValue)
deriving Repr

/-- First-match association-list lookup, the model of Python `dict[k]`. -/
def lookupField (fields : List (String × JsonValue)) (k : String) : Option JsonValue :=
  match fields with
  | [] => none
  | (k', v) :: rest => if k' = k then some v else lookupField rest k

/-- Python `d.get(k)`: `none` when `d` is not an object or lacks the key. -/
def JsonValue.getKey (j : JsonValue) (k : String) : Option JsonValue :=
  match j with
  | .obj fields => lookupField fields k
  | _ => none

/-- Python `d.get(k, default)`. -/
def JsonValue.getKeyD (j : JsonValue) (k : String) (d : JsonValue) : JsonValue :=
  (j.getKey k).getD d

/-- Extract a string, `none` when the value is absent or not a string. -/
def asStr : Option JsonValue → Option String
  | some (.str s) => some s
  | _ => none

/-- Python truthiness of a JSON value (`if device_data.get('lastEventTime')`). -/
def jsonTruthy : JsonValue → Bool
  | .str s => !s.isEmpty
  | .num n => n != 0
  | .boolean b => b
  | .null => false
  | .obj fields => !fields.isEmpty
  | .arr elems => !elems.isEmpty

/-- `models.py:ProtectAlarmState` (values ok, warning, emergency, testing, off). -/
inductive ProtectAlarmState where
  | ok
  | warning
  | emergency
  | testing
  | off
deriving Repr, DecidableEq

/-- `models.py:ProtectBatteryState` (values ok, replace_soon, replace_now, missing, invalid). -/
inductive ProtectBatteryState where
  | ok
  | replace
  | critical
  | missing
  | invalid
deriving Repr, DecidableEq

/-- Exceptions raised by the Python sources, by kind. `generic` stands for a
plain `Exception(...)` and carries the fixed leading label of its message. -/
inductive PyError where
  | keyErr (k : String)
  | validationErr (field : String)
  | attributeErr
  | nestAuth
  | nestConn
  | nestInvalidCommand
  | generic (label : String)
deriving Repr, DecidableEq

/-- `server.py:_map_alarm_state`: translate a raw Nest alarm-state string
through the fixed table; falsy input and unrecognized strings map to OFF. -/
def mapAlarmState (state : Option String) : ProtectAlarmState :=
  match state with
  | none => .off
  | some s =>
    if s = "" then .off
    else if s = "ALARM_STATE_UNSPECIFIED" then .off
    else if s = "ALARM_STATE_OFF" then .off
    else if s = "ALARM_STATE_WARNING" then .warning
    else if s = "ALARM_STATE_CRITICAL" then .emergency
    else if s = "ALARM_STATE_TEST" then .testing
    else .off

/-- `server.py:_map_battery_state`: translate a raw Nest battery-status
string; falsy input and unrecognized strings map to INVALID. -/
def mapBatteryState (status : Option String) : ProtectBatteryState :=
  match status with
  | none => .invalid
  | some s =>
    if s = "" then .invalid
    else if s = "BATTERY_STATUS_UNSPECIFIED" then .invalid
    else if s = "BATTERY_STATUS_NORMAL" then .ok
    else if s = "BATTERY_STATUS_LOW" then .replace
    else if s = "BATTERY_STATUS_CRITICAL" then .critical
    else if s = "BATTERY_STATUS_MISSING" then .missing
    else .invalid

/-- `models.py:ProtectDeviceState`, restricted to the fields
`server.py:_map_device_state` populates. Numeric sensor fields are modeled
as integers; `last_connection` stores the normalized timestamp string. -/
structure ProtectDeviceState where
  device_id : String
  devName : String
  model : String
  serial_number : String
  online : Bool
  battery_health : ProtectBatteryState
  co_alarm_state : ProtectAlarmState
  smoke_alarm_state : ProtectAlarmState
  heat_alarm_state : ProtectAlarmState
  battery_level : Option Int
  temperature : Option Int
  humidity : Option Int
  last_connection : Option String
  software_version : Option String
deriving Repr, DecidableEq

/-- Python `name.split('/')` (single-character separator, as used by the
source), implemented by structural recursion so proofs can evaluate it. -/
def splitSlashAux : List Char → List Char → List String
  | [], cur => [String.mk cur.reverse]
  | c :: rest, cur =>
    if c = '/' then String.mk cur.reverse :: splitSlashAux rest []
    else splitSlashAux rest (c :: cur)

/-- Python `name.split('/')` on a string. -/
def pySplitSlash (s : String) : List String := splitSlashAux s.data []

/-- Python `s.replace('Z', '+00:00')` (single-character pattern, as used by
the source), by structural recursion. -/
def replaceZ (s : String) : String :=
  String.mk (s.data.foldr
    (fun c acc =>
      if c = 'Z' then '+' :: '0' :: '0' :: ':' :: '0' :: '0' :: acc else c :: acc)
    [])

/-- Read an optional string field, failing like pydantic does when the raw
value is present but not a string. -/
def optStrField (v : Option JsonValue) (fieldName : String) : Except PyError (Option String) :=
  match v with
  | none => .ok none
  | some (.str s) => .ok (some s)
  | some _ => .error (.validationErr fieldName)

/-- Read a string field with a default, failing when present but not a string. -/
def strFieldD (v : Option JsonValue) (d : String) (fieldName : String) : Except PyError String :=
  match v with
  | none => .ok d
  | some (.str s) => .ok s
  | some _ => .error (.validationErr fieldName)

/-- Read an optional integer field with pydantic bounds `lo ≤ n ≤ hi`. -/
def optIntFieldBounded (v : Option JsonValue) (lo hi : Int) (fieldName : String) :
    Except PyError (Option Int) :=
  match v with
  | none => .ok none
  | some (.num n) => if lo ≤ n ∧ n ≤ hi then .ok (some n) else .error (.validationErr fieldName)
  | some _ => .error (.validationErr fieldName)

/-- Read an optional unconstrained integer field. -/
def optIntField (v : Option JsonValue) (fieldName : String) : Except PyError (Option Int) :=
  match v with
  | none => .ok none
  | some (.num n) => .ok (some n)
  | some _ => .error (.validationErr fieldName)

/-- `server.py:_map_device_state`: map a raw Nest API device document into a
`ProtectDeviceState`. Mirrors the source line by line, including the trait
keys each alarm field is read from (`co_alarm_state` is read from the
`sdm.devices.traits.Smoke` trait and `smoke_alarm_state` from the
`sdm.devices.traits.CarbonMonoxide` trait, exactly as in the source), the
`device_data['name']` subscript that raises KeyError when the key is
missing, and the pydantic field validation bounds. `datetime.fromisoformat`
is modeled as storing the normalized string. -/
def mapDeviceState (device_data : JsonValue) : Except PyError ProtectDeviceState := do
  let traits := device_data.getKeyD "traits" (.obj [])
  let co_alarm_state :=
    mapAlarmState (asStr ((traits.getKeyD "sdm.devices.traits.Smoke" (.obj [])).getKey "alarmState"))
  let smoke_alarm_state :=
    mapAlarmState (asStr ((traits.getKeyD "sdm.devices.traits.CarbonMonoxide" (.obj [])).getKey "alarmState"))
  let heat_alarm_state :=
    mapAlarmState (asStr ((traits.getKeyD "sdm.devices.traits.Heat" (.obj [])).getKey "alarmState"))
  let battery_state :=
    mapBatteryState (asStr ((traits.getKeyD "sdm.devices.traits.Battery" (.obj [])).getKey "batteryStatus"))
  let rawName ← match device_data.getKey "name" with
    | none => .error (.keyErr "name")
    | some (.str s) => .ok s
    | some _ => .error .attributeErr
  let info := traits.getKeyD "sdm.devices.traits.Info" (.obj [])
  let displayName ← strFieldD (info.getKey "customName") rawName "name"
  let model ← strFieldD (info.getKey "model") "Unknown" "model"
  let serial ← strFieldD (info.getKey "serialNumber") "" "serial_number"
  let online :=
    asStr ((traits.getKeyD "sdm.devices.traits.Connectivity" (.obj [])).getKey "status") = some "ONLINE"
  let batteryLevel ←
    optIntFieldBounded ((traits.getKeyD "sdm.devices.traits.Battery" (.obj [])).getKey "batteryLevel")
      0 100 "battery_level"
  let temperature ←
    optIntField ((traits.getKeyD "sdm.devices.traits.Temperature" (.obj [])).getKey "ambientTemperatureCelsius")
      "temperature"
  let humidity ←
    optIntFieldBounded ((traits.getKeyD "sdm.devices.traits.Humidity" (.obj [])).getKey "ambientHumidityPercent")
      0 100 "humidity"
  let lastConnection ← match device_data.getKey "lastEventTime" with
    | none => .ok none
    | some v =>
      if jsonTruthy v then
        match v with
        | .str s => .ok (some (replaceZ s))
        | _ => .error .attributeErr
      else .ok none
  let softwareVersion ←
    optStrField ((traits.getKeyD "sdm.devices.traits.Software" (.obj [])).getKey "version")
      "software_version"
  .ok {
    device_id := (pySplitSlash rawName).getLastD ""
    devName := displayName
    model := model
    serial_number := serial
    online := decide online
    battery_health := battery_state
    co_alarm_state := co_alarm_state
    smoke_alarm_state := smoke_alarm_state
    heat_alarm_state := heat_alarm_state
    battery_level := batteryLevel
    temperature := temperature
    humidity := humidity
    last_connection := lastConnection
    software_version := softwareVersion
  }

/-- The in-memory token fields of `NestProtectMCP`: `_access_token`,
`_refresh_token`, `_token_expires_at` (a float, modeled as `Int`). -/
structure TokenState where
  accessToken : Option String
  refreshToken : Option String
  expiresAt : Int
deriving Repr, DecidableEq

/-- Python truthiness test `not x` on an `Optional[str]`: true for `None`
and for the empty string. -/
def optFalsy : Option String → Bool
  | none => true
  | some s => s.isEmpty

/-- The token fields after the 401/403 clearing branch of
`_refresh_access_token`: all three reset to their empty defaults. -/
def clearedTokens : TokenState := ⟨none, none, 0⟩

/-- Body of a successful OAuth token response. Per the provider contract
`access_token` is always present (the source subscripts it directly);
`refresh_token` and `expires_in` are read with `.get`. -/
structure TokenData where
  access_token : String
  refresh_token : Option String
  expires_in : Option Int
deriving Repr, DecidableEq

/-- Outcome of the HTTP POST to the OAuth token endpoint, as seen by
`_refresh_access_token`: a 2xx body, a `raise_for_status` HTTP error with
its status code, or a transport-level `aiohttp.ClientError`. -/
inductive RefreshResponse where
  | success (d : TokenData)
  | httpError (status : Nat)
  | netError
deriving Repr, DecidableEq

/-- Result of one `_refresh_access_token` call: the in-memory token state
afterwards, the token state passed to `_save_auth_state` (if any), the
number of HTTP calls made to the token endpoint, and the exception raised
(if any). -/
structure RefreshOutcome where
  state : TokenState
  persisted : Option TokenState
  httpCalls : Nat
  error : Option PyError
deriving Repr, DecidableEq

/-- Python `token_data.get('refresh_token', self._refresh_token)`: rotate
to the supplied refresh token when the response carries one, else keep the
prior one. -/
def rotatedRefresh (old : Option String) (supplied : Option String) : Option String :=
  match supplied with
  | some r => some r
  | none => old

/-- `server.py:_refresh_access_token`. With no (or empty) refresh token it
logs and returns without any HTTP call. On a 2xx response it stores the new
access token, rotates the refresh token only when the response supplies
one, sets `expires_at = now + int(expires_in or 3600)` and persists. On an
HTTP error whose text contains 401 or 403 it clears all three token fields,
persists the cleared state and raises `NestConnectionError`; on any other
`aiohttp.ClientError` (other HTTP statuses or transport failures) it raises
`NestConnectionError` leaving the fields untouched and persisting
nothing. -/
def refreshAccessToken (st : TokenState) (now : Int) (resp : RefreshResponse) : RefreshOutcome :=
  if optFalsy st.refreshToken then
    ⟨st, none, 0, none⟩
  else
    match resp with
    | .success d =>
      let st' : TokenState :=
        ⟨some d.access_token, rotatedRefresh st.refreshToken d.refresh_token,
         now + (d.expires_in.getD 3600)⟩
      ⟨st', some st', 1, none⟩
    | .httpError code =>
      if code = 401 ∨ code = 403 then
        ⟨clearedTokens, some clearedTokens, 1, some .nestConn⟩
      else
        ⟨st, none, 1, some .nestConn⟩
    | .netError => ⟨st, none, 1, some .nestConn⟩

/-- Result of reading the `access_token` property: token state afterwards,
number of HTTP calls to the token endpoint, exception raised (if any), and
the returned token. -/
structure ReadOutcome where
  state : TokenState
  refreshHttpCalls : Nat
  error : Option PyError
  token : Option String
deriving Repr, DecidableEq

/-- The `access_token` property of `NestProtectMCP`: refresh when the
stored token is falsy or within 300 seconds of expiry, then return the
stored token. A refresh failure propagates. -/
def accessTokenRead (st : TokenState) (now : Int) (resp : RefreshResponse) : ReadOutcome :=
  if optFalsy st.accessToken || decide (now ≥ st.expiresAt - 300) then
    let r := refreshAccessToken st now resp
    match r.error with
    | some e => ⟨r.state, r.httpCalls, some e, none⟩
    | none => ⟨r.state, r.httpCalls, none, r.state.accessToken⟩
  else ⟨st, 0, none, st.accessToken⟩

/-- One scripted response of the device API: an HTTP status with a JSON
body, or a transport-level failure. -/
inductive ApiResp where
  | http (status : Nat) (body : JsonValue)
  | netFail
deriving Repr

/-- Result of one `_make_request` call: token state afterwards, number of
outbound device-API calls, number of HTTP calls to the token endpoint, and
the parsed JSON result or the exception raised. -/
structure RequestOutcome where
  state : TokenState
  apiCalls : Nat
  refreshHttpCalls : Nat
  outcome : Except PyError JsonValue
deriving Repr

/-- `server.py:_make_request`. Pre-flight: refresh when the stored access
token is falsy or expired (no buffer here); a refresh exception propagates
before any API call. Then issue the request with a Bearer header. On a 401
response: refresh once (`_refresh_access_token`, then the `access_token`
property), fail with `NestAuthError` when the resulting token is falsy,
otherwise retry exactly once; a non-2xx retry status raises through
`raise_for_status` and is wrapped into `NestConnectionError` by the
`except aiohttp.ClientError` handler, as is any transport failure. A first
response with any other error status is likewise wrapped into
`NestConnectionError`; a 2xx response returns its parsed JSON body.
`resps` scripts the device-API responses in order; an exhausted script is
treated as a transport failure. -/
def makeRequest (st : TokenState) (now : Int) (resps : List ApiResp) (rresp : RefreshResponse) :
    RequestOutcome :=
  let pre : RefreshOutcome :=
    if optFalsy st.accessToken || decide (now ≥ st.expiresAt) then refreshAccessToken st now rresp
    else ⟨st, none, 0, none⟩
  match pre.error with
  | some e => ⟨pre.state, 0, pre.httpCalls, .error e⟩
  | none =>
    let st1 := pre.state
    match resps.head? with
    | none => ⟨st1, 1, pre.httpCalls, .error .nestConn⟩
    | some .netFail => ⟨st1, 1, pre.httpCalls, .error .nestConn⟩
    | some (.http status body) =>
      if status = 401 then
        let r2 := refreshAccessToken st1 now rresp
        match r2.error with
        | some e => ⟨r2.state, 1, pre.httpCalls + r2.httpCalls, .error e⟩
        | none =>
          let rd := accessTokenRead r2.state now rresp
          let refreshes := pre.httpCalls + r2.httpCalls + rd.refreshHttpCalls
          match rd.error with
          | some e => ⟨rd.state, 1, refreshes, .error e⟩
          | none =>
            if optFalsy rd.token then ⟨rd.state, 1, refreshes, .error .nestAuth⟩
            else
              match resps.get? 1 with
              | none => ⟨rd.state, 2, refreshes, .error .nestConn⟩
              | some ApiResp.netFail => ⟨rd.state, 2, refreshes, .error .nestConn⟩
              | some (ApiResp.http s2 b2) =>
                if 400 ≤ s2 then ⟨rd.state, 2, refreshes, .error .nestConn⟩
                else ⟨rd.state, 2, refreshes, .ok b2⟩
      else if 400 ≤ status then ⟨st1, 1, pre.httpCalls, .error .nestConn⟩
      else ⟨st1, 1, pre.httpCalls, .ok body⟩

/-- Content of a file on disk: either a document `json.load` parses
successfully, or raw text it rejects (truncated or corrupted data). -/
inductive FileContent where
  | jsonDoc (doc : List (String × JsonValue))
  | rawText (s : String)
deriving Repr

/-- A filesystem: a map from path strings to file contents. -/
def FileSys : Type := String → Option FileContent

/-- Read a file. -/
def fsRead (fs : FileSys) (p : String) : Option FileContent := fs p

/-- Create or overwrite a file (`open(p, 'w')` followed by a full write). -/
def fsWrite (fs : FileSys) (p : String) (c : FileContent) : FileSys :=
  fun q => if q = p then some c else fs q

/-- `os.rename(src, dst)` / `os.replace(src, dst)`: atomically move `src`
over `dst`. -/
def fsRename (fs : FileSys) (src dst : String) : FileSys :=
  fun q => if q = dst then fs src else if q = src then none else fs q

/-- `shutil.copy2(src, dst)`: copy `src` to `dst`, leaving `src` in place. -/
def fsCopy (fs : FileSys) (src dst : String) : FileSys :=
  match fs src with
  | some c => fsWrite fs dst c
  | none => fs

/-- The sibling temp path `f"{state_file}.tmp"` used by `_save_state`. -/
def tmpPath (sf : String) : String := sf ++ ".tmp"

/-- The backup path `f"{state_file}.corrupted.{int(time.time())}"` used by
`_load_state` for invalid JSON. -/
def corruptedPath (sf : String) (now : Int) : String := sf ++ ".corrupted." ++ toString now

/-- The filesystem after `_save_state` has written the full document to the
sibling temp file but before the rename (the last point a crash can hit
before the atomic step). A crash can also leave the temp file truncated;
`saveStateCrashTruncated` covers that. -/
def saveStateTempWritten (fs : FileSys) (sf : String) (doc : List (String × JsonValue)) : FileSys :=
  fsWrite fs (tmpPath sf) (.jsonDoc doc)

/-- The filesystem after a crash mid-write of the temp file: the temp file
holds arbitrary truncated text, the rename never happened. -/
def saveStateCrashTruncated (fs : FileSys) (sf : String) (truncated : String) : FileSys :=
  fsWrite fs (tmpPath sf) (.rawText truncated)

/-- `state_manager.py:_save_state`: when the manager is initialized, dump
the full state document to the sibling temp file and rename it over the
destination (`os.replace` on Windows, `os.rename` elsewhere — both are the
same atomic move in this model); when not initialized, log and do
nothing. -/
def saveState (inited : Bool) (fs : FileSys) (sf : String) (doc : List (String × JsonValue)) :
    FileSys :=
  if inited then fsRename (saveStateTempWritten fs sf doc) (tmpPath sf) sf
  else fs

/-- `state_manager.py:_load_state`: a missing file yields the empty map; a
parseable file yields its document; a file `json.load` rejects is backed up
with `shutil.copy2` to the timestamped corrupted path and the in-memory map
becomes empty. Every branch returns normally (the `except` handlers catch
`JSONDecodeError` and any backup failure). -/
def loadState (fs : FileSys) (sf : String) (now : Int) :
    FileSys × List (String × JsonValue) :=
  match fsRead fs sf with
  | none => (fs, [])
  | some (.jsonDoc doc) => (fs, doc)
  | some (.rawText raw) => (fsCopy fs sf (corruptedPath sf now), [])

/-- The class-level attributes of `state_manager.py:StateManager` that
`__new__` manipulates: the `_instance` slot (an allocated object id when
set), the shared `_state` map of that instance, and the id the next
allocation would get. -/
structure SMClassState where
  instanceId : Option Nat
  store : List (String × JsonValue)
  nextId : Nat

/-- `StateManager.__new__`: allocate and remember a fresh instance (with an
empty `_state`) only when `_instance` is `None`; otherwise return the
remembered instance unchanged. The returned `Nat` is the object identity of
the returned instance. -/
def smNew (c : SMClassState) : SMClassState × Nat :=
  match c.instanceId with
  | some i => (c, i)
  | none => ({ instanceId := some c.nextId, store := [], nextId := c.nextId + 1 }, c.nextId)

/-- `StateManager.set` (the in-memory mutation under the lock): store the
value under the key in the shared map. -/
def smSet (c : SMClassState) (k : String) (v : JsonValue) : SMClassState :=
  { c with store := (k, v) :: c.store }

/-- `StateManager.get` (under the lock): first-match lookup in the shared
map. -/
def smGet (c : SMClassState) (k : String) : Option JsonValue :=
  lookupField c.store k

/-- `models.py:ProtectCommand.validate_command`: the accepted command
names. -/
def validCommands : List String := ["hush", "test", "locate", "update"]

/-- The `@field_validator('command')` body of `ProtectCommand`: reject any
command string not in `validCommands` with a pydantic `ValidationError`. -/
def validateCommand (v : String) : Except PyError String :=
  if v ∈ validCommands then .ok v
  else .error (.validationErr "command")

/-- `models.py:ProtectCommand` after validation. -/
structure ProtectCommand where
  command : String
  device_id : Option String
  params : List (String × JsonValue)

/-- Constructing `ProtectCommand(device_id=..., command=..., params=...)`:
pydantic runs the command validator; an invalid command raises
`ValidationError` and no instance is produced. -/
def mkProtectCommand (device_id : Option String) (command : String)
    (params : List (String × JsonValue)) : Except PyError ProtectCommand :=
  match validateCommand command with
  | .error e => .error e
  | .ok c => .ok ⟨c, device_id, params⟩

/-- Result of `_handle_send_command`: how many outbound network calls were
made, and the success payload or the exception raised. -/
structure SendOutcome where
  networkCalls : Nat
  result : Except PyError (String × String)
deriving Repr

/-- `server.py:_handle_send_command`. The `ProtectCommand` is constructed —
running the command validator — before anything touches the network; a
`ValidationError` is caught and re-raised as a plain
`Exception(f"Invalid command: ...")` with zero network calls made. Only a
valid command reaches the dispatch step, modeled by the `dispatch`
argument, which reports its network-call count and outcome; dispatch
failures of any kind are re-raised as plain `Exception`s by the
surrounding handlers. -/
def handleSendCommand (device_id : String) (command : String)
    (params : List (String × JsonValue))
    (dispatch : ProtectCommand → Nat × Except PyError Bool) : SendOutcome :=
  match mkProtectCommand (some device_id) command params with
  | .error (.validationErr f) => ⟨0, .error (.generic "Invalid command")⟩
  | .error e => ⟨0, .error e⟩
  | .ok cmd =>
    let (n, r) := dispatch cmd
    match r with
    | .ok true => ⟨n, .ok ("success", "Command sent successfully")⟩
    | .ok false => ⟨n, .error (.generic "Error sending command")⟩
    | .error _ => ⟨n, .error (.generic "Error sending command")⟩

/-- The legacy `AppState` fields `tools/device_status.py:list_devices`
reads. -/
structure AppStateM where
  access_token : Option String
  project_id : String

/-- The value `list_devices` returns: always a status dict, either an error
payload or a success payload with the device count and raw device list. -/
inductive ListDevicesResult where
  | errorRes (message : String)
  | okRes (count : Nat) (devices : List JsonValue)
deriving Repr

/-- `tools/device_status.py:list_devices`, with the HTTP response scripted
by `resp`. Unauthenticated (falsy `access_token`): return the
`Not authenticated` error dict before creating any session — zero network
calls, nothing raised, nothing logged. Otherwise one GET is made; a 200
returns the device list (the per-device summary projection is elided — the
claims touch only the unauthenticated branch), any other status or failure
returns an error dict via the `except` handler. -/
def listDevices (st : AppStateM) (resp : ApiResp) : Nat × ListDevicesResult :=
  if optFalsy st.access_token then
    (0, .errorRes "Not authenticated with Nest API")
  else
    match resp with
    | .netFail => (1, .errorRes "Failed to list devices")
    | .http status body =>
      if status = 200 then
        let devices := match body.getKey "devices" with
          | some (.arr ds) => ds
          | _ => []
        (1, .okRes devices.length devices)
      else (1, .errorRes "Failed to list devices")

/-- Result of `_get_devices_from_api`: whether a `logger.warning` was
emitted, how many device-API calls were made, and the returned list. -/
structure FetchOutcome where
  warned : Bool
  apiCalls : Nat
  devices : List JsonValue
deriving Repr

/-- `server.py:_get_devices_from_api`: with a falsy refresh token, log a
warning and return the empty list without any network activity. Otherwise
call `_make_request`; a `NestAuthError` is downgraded to a warning and an
empty list, any other exception to an error log and an empty list; a
success returns `response.get('devices', [])`. Never raises. -/
def getDevicesFromApi (st : TokenState) (now : Int) (resps : List ApiResp)
    (rresp : RefreshResponse) : FetchOutcome :=
  if optFalsy st.refreshToken then ⟨true, 0, []⟩
  else
    let r := makeRequest st now resps rresp
    match r.outcome with
    | .ok body =>
      match body.getKey "devices" with
      | some (.arr ds) => ⟨false, r.apiCalls, ds⟩
      | _ => ⟨false, r.apiCalls, []⟩
    | .error .nestAuth => ⟨true, r.apiCalls, []⟩
    | .error _ => ⟨false, r.apiCalls, []⟩

/-- A raw device document with a CRITICAL smoke-trait alarm and an OFF
carbon-monoxide-trait alarm: the input on which the trait swap in
`_map_device_state` is visible. -/
def c5FailingDoc : JsonValue :=
  .obj [
    ("name", .str "enterprises/p/devices/abc"),
    ("traits", .obj [
      ("sdm.devices.traits.Smoke", .obj [("alarmState", .str "ALARM_STATE_CRITICAL")]),
      ("sdm.devices.traits.CarbonMonoxide", .obj [("alarmState", .str "ALARM_STATE_OFF")])
    ])
  ]

/-- C5: the claim says `co_alarm_state` is derived from the
carbon-monoxide trait and `smoke_alarm_state` from the smoke trait. The
code reads them from the opposite traits: on a document whose smoke trait
reports ALARM_STATE_CRITICAL and whose carbon-monoxide trait reports
ALARM_STATE_OFF, the mapper yields `co_alarm_state = emergency` (taken
from the smoke trait) and `smoke_alarm_state = off` (taken from the
carbon-monoxide trait) — the reverse of the claim and of the field
documentation in `models.py`. -/
theorem c5_trait_swap_at_failing_input :
    mapDeviceState c5FailingDoc = .ok {
      device_id := "abc"
      devName := "enterprises/p/devices/abc"
      model := "Unknown"
      serial_number := ""
      online := false
      battery_health := .invalid
      co_alarm_state := .emergency
      smoke_alarm_state := .off
      heat_alarm_state := .off
      battery_level := none
      temperature := none
      humidity := none
      last_connection := none
      software_version := none
    } := by rfl

/-- The spec's concrete mapper fixture: a device document with only a
resource name and an empty traits object. -/
def c6EmptyTraitsDoc : JsonValue :=
  .obj [
    ("name", .str "enterprises/p/devices/abc"),
    ("traits", .obj [])
  ]

/-- C6 counterexample: the claim says the device mapper never raises on
any raw device document, but `_map_device_state` subscripts
`device_data['name']`, so a document lacking the `name` key (here one with
an empty traits object and nothing else) raises KeyError. -/
theorem c6_missing_name_raises :
    mapDeviceState (.obj [("traits", .obj [])]) = .error (.keyErr "name") := by rfl

/-- C6 (amended): the mapper fails calm on partial trait data — every
alarm-state string other than the three that map to warning, emergency or
testing (and the missing case) maps to "off", every battery-status string
other than the four recognized ones (and the missing case) maps to
"invalid" — and on the fixture document with an empty traits object it
yields id "abc", online false, all three alarm states "off" and
battery_health "invalid"; the mapper can however raise on a document
lacking the `name` key. -/
theorem c6_mapper_defaults :
    (∀ s : String,
      s ∉ ["ALARM_STATE_WARNING", "ALARM_STATE_CRITICAL", "ALARM_STATE_TEST"] →
      mapAlarmState (some s) = .off)
    ∧ mapAlarmState none = .off
    ∧ (∀ s : String,
      s ∉ ["BATTERY_STATUS_NORMAL", "BATTERY_STATUS_LOW", "BATTERY_STATUS_CRITICAL",
           "BATTERY_STATUS_MISSING"] →
      mapBatteryState (some s) = .invalid)
    ∧ mapBatteryState none = .invalid
    ∧ mapDeviceState c6EmptyTraitsDoc = .ok {
        device_id := "abc"
        devName := "enterprises/p/devices/abc"
        model := "Unknown"
        serial_number := ""
        online := false
        battery_health := .invalid
        co_alarm_state := .off
        smoke_alarm_state := .off
        heat_alarm_state := .off
        battery_level := none
        temperature := none
        humidity := none
        last_connection := none
        software_version := none
      } := by
  refine ⟨fun s h => ?_, rfl, fun s h => ?_, rfl, by rfl⟩
  · simp only [List.mem_cons, List.mem_singleton, not_or] at h
    obtain ⟨h1, h2, h3⟩ := h
    simp [mapAlarmState, h1, h2, h3]
  · simp only [List.mem_cons, List.mem_singleton, not_or] at h
    obtain ⟨h1, h2, h3, h4⟩ := h
    simp [mapBatteryState, h1, h2, h3, h4]

/-- C6 witness: the amended default rules evaluated at a concrete
unrecognized vendor string. -/
theorem c6_mapper_defaults_witness :
    mapAlarmState (some "SOME_FUTURE_VENDOR_STATE") = .off
    ∧ mapBatteryState (some "SOME_FUTURE_VENDOR_STATE") = .invalid :=
  ⟨c6_mapper_defaults.1 "SOME_FUTURE_VENDOR_STATE" (by decide),
   c6_mapper_defaults.2.2.1 "SOME_FUTURE_VENDOR_STATE" (by decide)⟩

/-- C10: constructing `StateManager` twice returns the identical
process-wide instance (the same object identity), and because the
instances coincide, a `set(k, v)` performed through the object returned by
the second construction is observed by a `get(k)` through the shared
store. -/
theorem c10_singleton_shared_state (c : SMClassState) (k : String) (v : JsonValue) :
    (smNew (smNew c).1).2 = (smNew c).2
    ∧ smGet (smSet (smNew (smNew c).1).1 k v) k = some v := by
  cases h : c.instanceId <;>
    simp [smNew, h, smGet, smSet, lookupField]

/-- C2: every save writes the full document to the sibling temp file and
renames it over the destination, so the destination is untouched at every
point before the rename — after a crash that truncated the temp file, and
even with the temp file fully written — and holds exactly the complete new
document after the rename. A reader of the state file therefore sees
either the previously persisted document or the complete new one, never a
partial write. -/
theorem c2_save_is_atomic (fs : FileSys) (sf : String)
    (doc : List (String × JsonValue)) (truncated : String)
    (h : tmpPath sf ≠ sf) :
    fsRead (saveStateCrashTruncated fs sf truncated) sf = fsRead fs sf
    ∧ fsRead (saveStateTempWritten fs sf doc) sf = fsRead fs sf
    ∧ fsRead (saveState true fs sf doc) sf = some (.jsonDoc doc) := by
  have h' : sf ≠ tmpPath sf := fun e => h e.symm
  refine ⟨?_, ?_, ?_⟩
  · simp [saveStateCrashTruncated, fsWrite, fsRead, h']
  · simp [saveStateTempWritten, fsWrite, fsRead, h']
  · simp [saveState, fsRename, saveStateTempWritten, fsWrite, fsRead]

/-- C2 witness: the atomicity statement evaluated at the concrete state
file path the repository uses. -/
theorem c2_save_is_atomic_witness :
    fsRead (saveStateCrashTruncated (fun _ => none) "data/state.json" "trunc")
        "data/state.json" = fsRead (fun _ => none) "data/state.json"
    ∧ fsRead (saveStateTempWritten (fun _ => none) "data/state.json"
        [("k", .str "v")]) "data/state.json" = fsRead (fun _ => none) "data/state.json"
    ∧ fsRead (saveState true (fun _ => none) "data/state.json" [("k", .str "v")])
        "data/state.json" = some (.jsonDoc [("k", .str "v")]) :=
  c2_save_is_atomic (fun _ => none) "data/state.json" [("k", .str "v")] "trunc" (by decide)

/-- A filesystem holding one state file whose content `json.load`
rejects. -/
def c9CorruptFs : FileSys :=
  fun p => if p = "data/state.json" then some (.rawText "not json") else none

/-- C9 counterexample: the claim says an invalid state file is moved aside
as the timestamped backup; the code backs it up with `shutil.copy2`, which
copies. After loading the corrupted filesystem, the original path still
holds the corrupted document (it was not moved aside), while the backup
also exists and the in-memory map is empty. -/
theorem c9_corrupted_file_copied_not_moved :
    (loadState c9CorruptFs "data/state.json" 1700).2 = []
    ∧ fsRead (loadState c9CorruptFs "data/state.json" 1700).1 "data/state.json" =
        some (.rawText "not json")
    ∧ fsRead (loadState c9CorruptFs "data/state.json" 1700).1
        (corruptedPath "data/state.json" 1700) = some (.rawText "not json") := by
  refine ⟨rfl, ?_, ?_⟩ <;> rfl

/-- C9 (amended): on load, a missing state file yields the empty in-memory
map; a parseable file yields its document; a state file with invalid JSON
is backed up by copying it to the timestamped `<file>.corrupted.<ts>` path
— the original file is left in place — and the in-memory map becomes
empty; every branch returns normally, so the load never crashes. -/
theorem c9_load_self_healing (fs : FileSys) (sf : String) (now : Int)
    (hb : corruptedPath sf now ≠ sf) :
    (fsRead fs sf = none → loadState fs sf now = (fs, []))
    ∧ (∀ doc, fsRead fs sf = some (.jsonDoc doc) → loadState fs sf now = (fs, doc))
    ∧ (∀ raw, fsRead fs sf = some (.rawText raw) →
        (loadState fs sf now).2 = []
        ∧ fsRead (loadState fs sf now).1 sf = some (.rawText raw)
        ∧ fsRead (loadState fs sf now).1 (corruptedPath sf now) = some (.rawText raw)) := by
  have hb' : sf ≠ corruptedPath sf now := fun e => hb e.symm
  refine ⟨fun h => ?_, fun doc h => ?_, fun raw h => ?_⟩
  · simp [loadState, h]
  · simp [loadState, h]
  · simp only [fsRead] at h
    refine ⟨?_, ?_, ?_⟩ <;> simp [loadState, h, fsCopy, fsRead, fsWrite, hb']

/-- C9 witness: the amended load behavior evaluated on a concrete
filesystem holding a corrupted state file. -/
theorem c9_load_self_healing_witness :
    (loadState c9CorruptFs "data/state.json" 1700).2 = []
    ∧ fsRead (loadState c9CorruptFs "data/state.json" 1700).1 "data/state.json" =
        some (.rawText "not json")
    ∧ fsRead (loadState c9CorruptFs "data/state.json" 1700).1
        (corruptedPath "data/state.json" 1700) = some (.rawText "not json") :=
  (c9_load_self_healing c9CorruptFs "data/state.json" 1700 (by decide)).2.2
    "not json" rfl

/-- C3: when the refresh HTTP call fails with status 401 or 403, all three
token fields are cleared to their empty defaults and the cleared state is
persisted (a connection-class error is then raised); on a refresh failure
with any other HTTP status, and on a transport-level failure, a
connection-class error is raised and the existing token fields are left
untouched with nothing persisted. -/
theorem c3_refresh_failure_handling (st : TokenState) (now : Int) (code : Nat)
    (hr : optFalsy st.refreshToken = false) :
    ((code = 401 ∨ code = 403) →
      refreshAccessToken st now (.httpError code) =
        ⟨clearedTokens, some clearedTokens, 1, some .nestConn⟩)
    ∧ (¬(code = 401 ∨ code = 403) →
      refreshAccessToken st now (.httpError code) = ⟨st, none, 1, some .nestConn⟩)
    ∧ refreshAccessToken st now .netError = ⟨st, none, 1, some .nestConn⟩ := by
  refine ⟨fun h => ?_, fun h => ?_, ?_⟩
  · simp [refreshAccessToken, hr, h]
  · simp [refreshAccessToken, hr, h]
  · simp [refreshAccessToken, hr]

/-- C3 witness: the failure handling evaluated at a concrete authenticated
state, for a 401 refresh failure and for a 500 refresh failure. -/
theorem c3_refresh_failure_handling_witness :
    refreshAccessToken ⟨some "A", some "R", 99⟩ 0 (.httpError 401) =
      ⟨clearedTokens, some clearedTokens, 1, some .nestConn⟩
    ∧ refreshAccessToken ⟨some "A", some "R", 99⟩ 0 (.httpError 500) =
      ⟨⟨some "A", some "R", 99⟩, none, 1, some .nestConn⟩ :=
  ⟨(c3_refresh_failure_handling ⟨some "A", some "R", 99⟩ 0 401 (by decide)).1
      (Or.inl rfl),
   (c3_refresh_failure_handling ⟨some "A", some "R", 99⟩ 0 500 (by decide)).2.1
      (by decide)⟩

/-- C4: a successful refresh_token grant whose response carries
access_token "T" and expires_in 3600 stores access token "T", sets the
expiry to now + 3600, keeps the prior refresh token when the response
omits one and rotates it when one is supplied, and persists exactly the
new token state; an immediately following read of the `access_token`
property returns "T" with zero further calls to the token endpoint,
whatever response the endpoint would have given. -/
theorem c4_refresh_success_and_cached_read (st : TokenState) (now : Int) (rot : String)
    (hr : optFalsy st.refreshToken = false) :
    (refreshAccessToken st now (.success ⟨"T", none, some 3600⟩)).state =
      ⟨some "T", st.refreshToken, now + 3600⟩
    ∧ (refreshAccessToken st now (.success ⟨"T", none, some 3600⟩)).persisted =
      some ⟨some "T", st.refreshToken, now + 3600⟩
    ∧ (refreshAccessToken st now (.success ⟨"T", none, some 3600⟩)).error = none
    ∧ (refreshAccessToken st now (.success ⟨"T", some rot, some 3600⟩)).state.refreshToken =
      some rot
    ∧ (∀ laterResp : RefreshResponse,
        accessTokenRead ⟨some "T", st.refreshToken, now + 3600⟩ now laterResp =
          ⟨⟨some "T", st.refreshToken, now + 3600⟩, 0, none, some "T"⟩) := by
  have hc : decide (now ≥ now + 3600 - 300) = false := decide_eq_false (by omega)
  have ht : "T".isEmpty = false := by decide
  refine ⟨?_, ?_, ?_, ?_, fun laterResp => ?_⟩
  · simp [refreshAccessToken, rotatedRefresh, hr]
  · simp [refreshAccessToken, rotatedRefresh, hr]
  · simp [refreshAccessToken, rotatedRefresh, hr]
  · simp [refreshAccessToken, rotatedRefresh, hr]
  · simp [accessTokenRead, optFalsy, hc, ht]

/-- C4 witness: the refresh-success contract evaluated at a concrete
authenticated state and time. -/
theorem c4_refresh_success_witness :
    (refreshAccessToken ⟨none, some "R", 0⟩ 1000 (.success ⟨"T", none, some 3600⟩)).state =
      ⟨some "T", some "R", 4600⟩
    ∧ accessTokenRead ⟨some "T", some "R", 4600⟩ 1000 .netError =
      ⟨⟨some "T", some "R", 4600⟩, 0, none, some "T"⟩ :=
  ⟨(c4_refresh_success_and_cached_read ⟨none, some "R", 0⟩ 1000 "R2" (by decide)).1,
   (c4_refresh_success_and_cached_read ⟨none, some "R", 0⟩ 1000 "R2"
      (by decide)).2.2.2.2 .netError⟩

/-- C1 (amended): for a request issued with a live token, a first 401
response forces exactly one token refresh and exactly one retry with the
new token: with responses 401 then 200 the pipeline makes exactly two
outbound API calls and one refresh call and returns the parsed JSON of the
second response; with two consecutive 401 responses it makes exactly two
outbound API calls and one refresh call and raises the connection-class
`NestConnectionError` (the retry's 401 goes through `raise_for_status`
into the `except aiohttp.ClientError` wrapper), not an authentication
error — with no third outbound call either way. -/
theorem c1_single_refresh_single_retry (st : TokenState) (now : Int) (nt : String)
    (rot : Option String) (expIn : Int) (bA bB b2 : JsonValue)
    (ha : optFalsy st.accessToken = false)
    (hexp : now < st.expiresAt)
    (hr : optFalsy st.refreshToken = false)
    (hnt : optFalsy (some nt) = false)
    (hei : 300 < expIn) :
    makeRequest st now [.http 401 bA, .http 200 b2] (.success ⟨nt, rot, some expIn⟩) =
      ⟨⟨some nt, rotatedRefresh st.refreshToken rot, now + expIn⟩, 2, 1, .ok b2⟩
    ∧ makeRequest st now [.http 401 bA, .http 401 bB] (.success ⟨nt, rot, some expIn⟩) =
      ⟨⟨some nt, rotatedRefresh st.refreshToken rot, now + expIn⟩, 2, 1,
        .error .nestConn⟩ := by
  have h1 : ¬(st.expiresAt ≤ now) := by omega
  have h2 : ¬(expIn ≤ 300) := by omega
  constructor <;>
    simp [makeRequest, refreshAccessToken, accessTokenRead, ha, hr, h1, h2, hnt]

/-- C1 witness: the retry behavior evaluated at a concrete live session. -/
theorem c1_single_refresh_single_retry_witness :
    makeRequest ⟨some "tok", some "ref", 10000⟩ 0
        [.http 401 .null, .http 200 (.obj [("devices", .arr [])])]
        (.success ⟨"tok2", none, some 3600⟩) =
      ⟨⟨some "tok2", some "ref", 3600⟩, 2, 1, .ok (.obj [("devices", .arr [])])⟩ :=
  (c1_single_refresh_single_retry ⟨some "tok", some "ref", 10000⟩ 0 "tok2" none 3600
    .null .null (.obj [("devices", .arr [])])
    (by decide) (by decide) (by decide) (by decide) (by decide)).1

/-- The pipeline run the original claim fails on: a live session whose two
scripted API responses are both 401, with a refresh that succeeds. -/
def c1DoubleRun : RequestOutcome :=
  makeRequest ⟨some "tok", some "ref", 10000⟩ 0 [.http 401 .null, .http 401 .null]
    (.success ⟨"tok2", none, some 3600⟩)

/-- C1 counterexample: the claim says two consecutive 401 responses yield
an AuthenticationError. On a concrete run with responses 401 then 401 the
pipeline makes exactly two outbound calls and one refresh, but the raised
error is the connection-class `NestConnectionError`, not the
authentication-class `NestAuthError`. -/
theorem c1_double_401_not_auth_error :
    c1DoubleRun.outcome = .error .nestConn
    ∧ c1DoubleRun.outcome ≠ .error .nestAuth
    ∧ c1DoubleRun.apiCalls = 2
    ∧ c1DoubleRun.refreshHttpCalls = 1 := by
  refine ⟨rfl, ?_, rfl, rfl⟩
  intro h
  rw [show c1DoubleRun.outcome = .error .nestConn from rfl] at h
  exact PyError.noConfusion (Except.error.inj h)

/-- A dispatch stub standing for the network step a valid command would
reach; an invalid command must never invoke it. -/
def c7DummyDispatch : ProtectCommand → Nat × Except PyError Bool :=
  fun _ => (1, .ok true)

/-- C7 counterexample: the claim says `send_command` with command "bogus"
fails with InvalidCommandError. On the concrete request it does fail
before any network call, but the raised error is a plain
`Exception("Invalid command: ...")` wrapping the pydantic ValidationError —
the repository's `NestInvalidCommandError` type is never raised. -/
theorem c7_bogus_not_invalid_command_error :
    handleSendCommand "dev1" "bogus" [] c7DummyDispatch =
      ⟨0, .error (.generic "Invalid command")⟩
    ∧ (handleSendCommand "dev1" "bogus" [] c7DummyDispatch).result ≠
      .error .nestInvalidCommand := by
  refine ⟨rfl, ?_⟩
  intro h
  rw [show (handleSendCommand "dev1" "bogus" [] c7DummyDispatch).result =
      .error (.generic "Invalid command") from rfl] at h
  exact PyError.noConfusion (Except.error.inj h)

/-- C7 (amended): `send_command` validates the command enum before any
network activity: for every command string outside the accepted list, the
handler fails — with a plain `Exception` labeled "Invalid command"
wrapping the pydantic ValidationError, not with the unused
`NestInvalidCommandError` type — and zero network calls are made,
whatever the dispatch step would have done. -/
theorem c7_invalid_command_fails_fast (device_id : String) (command : String)
    (params : List (String × JsonValue))
    (dispatch : ProtectCommand → Nat × Except PyError Bool)
    (h : command ∉ validCommands) :
    handleSendCommand device_id command params dispatch =
      ⟨0, .error (.generic "Invalid command")⟩ := by
  simp [handleSendCommand, mkProtectCommand, validateCommand, h]

/-- C7 witness: the fail-fast behavior evaluated at the spec's concrete
bogus command. -/
theorem c7_invalid_command_fails_fast_witness :
    handleSendCommand "dev1" "hushhh" [] c7DummyDispatch =
      ⟨0, .error (.generic "Invalid command")⟩ :=
  c7_invalid_command_fails_fast "dev1" "hushhh" [] c7DummyDispatch (by decide)

/-- The unauthenticated legacy app state (`state.access_token is None`). -/
def c8UnauthAppState : AppStateM := ⟨none, "proj"⟩

/-- C8 counterexample: the claim says `list_devices()` returns an empty
list when unauthenticated. The tool-level `list_devices` instead returns a
status-error dict with message "Not authenticated with Nest API" (with
zero network calls and nothing raised) — not an empty device list. -/
theorem c8_unauth_list_devices_is_error_dict :
    listDevices c8UnauthAppState (.http 200 (.obj [("devices", .arr [])])) =
      (0, .errorRes "Not authenticated with Nest API")
    ∧ (listDevices c8UnauthAppState (.http 200 (.obj [("devices", .arr [])]))).2 ≠
      .okRes 0 [] := by
  refine ⟨rfl, ?_⟩
  intro h
  rw [show (listDevices c8UnauthAppState (.http 200 (.obj [("devices", .arr [])]))).2 =
      .errorRes "Not authenticated with Nest API" from rfl] at h
  exact ListDevicesResult.noConfusion h

/-- C8 (amended): when the system is unauthenticated, neither listing path
raises and neither makes a network call: the tool-level `list_devices`
(falsy access token) returns the "Not authenticated with Nest API"
status-error dict, and the server's internal `_get_devices_from_api`
(falsy refresh token) returns the empty device list with a logged
warning. -/
theorem c8_unauthenticated_degrades (ast : AppStateM) (resp : ApiResp)
    (st : TokenState) (now : Int) (resps : List ApiResp) (rresp : RefreshResponse)
    (h1 : optFalsy ast.access_token = true)
    (h2 : optFalsy st.refreshToken = true) :
    listDevices ast resp = (0, .errorRes "Not authenticated with Nest API")
    ∧ getDevicesFromApi st now resps rresp = ⟨true, 0, []⟩ := by
  constructor
  · simp [listDevices, h1]
  · simp [getDevicesFromApi, h2]

/-- C8 witness: the unauthenticated behavior of both listing paths at
concrete unauthenticated states. -/
theorem c8_unauthenticated_degrades_witness :
    listDevices c8UnauthAppState .netFail =
      (0, .errorRes "Not authenticated with Nest API")
    ∧ getDevicesFromApi ⟨none, none, 0⟩ 0 [] .netError = ⟨true, 0, []⟩ :=
  c8_unauthenticated_degrades c8UnauthAppState .netFail ⟨none, none, 0⟩ 0 [] .netError
    (by decide) (by decide)
